import Mathlib

/-!
Verification model of the react-agent repository core: the context window
manager (react_agent/context_manager.py), the token tracker
(react_agent/token_tracker.py), and the agent / subagent state glue
(react_agent/agent.py, react_agent/subagent.py).

Python dict-shaped messages are modelled by a structure with optional
fields; the tiktoken text tokenizer is an external collaborator and is
modelled by an explicit parameter countText : String → Nat; Python floats
(the near-limit threshold) are modelled by rationals.  Wall-clock fields
(timestamps, execution_time) are omitted: they carry no verified content.
-/

namespace ReactAgentModel

/-- Message roles, from the MessageRole enum in context_manager.py. -/
inductive MessageRole where
  | system
  | user
  | assistant
  | tool
deriving DecidableEq

/-- The string value of a role (the .value of the Python str-enum). -/
def roleValue : MessageRole → String
  | .system => "system"
  | .user => "user"
  | .assistant => "assistant"
  | .tool => "tool"

/-- One tool-call descriptor, of the dict shape consumed by
_summarize_messages: a dict with an optional function sub-dict holding an
optional name.  function_name is none when either level is missing. -/
structure ToolCall where
  function_name : Option String
deriving DecidableEq

/-- Python str() rendering of one tool-call dict (single quotes written
with hex escapes). -/
def toolCallRepr (tc : ToolCall) : String :=
  match tc.function_name with
  | some n => "\x7b\x27function\x27: \x7b\x27name\x27: \x27" ++ n ++ "\x27\x7d\x7d"
  | none => "\x7b\x7d"

/-- Python str() rendering of a tool-call list. -/
def toolCallsRepr (tcs : List ToolCall) : String :=
  "[" ++ String.intercalate ", " (tcs.map toolCallRepr) ++ "]"

/-- A message dict: role and content keys plus the optional keys that
add_message in context_manager.py may set.  An Option field is some
exactly when the key is present in the dict. -/
structure Msg where
  role : String
  content : Option String
  name : Option String
  tool_calls : Option (List ToolCall)
  tool_call_id : Option String
deriving DecidableEq

/-- CompactionStrategy dataclass from context_manager.py. -/
structure CompactionStrategy where
  keep_first_n : Nat
  keep_last_n : Nat
  summarize_middle : Bool
  summary_max_tokens : Nat
deriving DecidableEq

/-- ContextManager state: max_tokens, the live message list, the strategy,
compaction_count, and the three metadata dict entries. -/
structure ContextManager where
  max_tokens : Nat
  messages : List Msg
  strategy : CompactionStrategy
  compaction_count : Nat
  total_messages : Nat
  compactions_meta : Nat
  tokens_saved : Int
deriving DecidableEq

/-- Fresh ContextManager, as built by ContextManager.__init__. -/
def mkContextManager (max_tokens : Nat) (strategy : CompactionStrategy) : ContextManager :=
  ⟨max_tokens, [], strategy, 0, 0, 0, 0⟩

/-- Python truthiness filter for an optional string argument: the key is
set only when the value is truthy (non-empty). -/
def pyTruthyStr : Option String → Option String
  | some s => if s = "" then none else some s
  | none => none

/-- Python truthiness filter for an optional tool-call list argument. -/
def pyTruthyList : Option (List ToolCall) → Option (List ToolCall)
  | some l => if l = [] then none else some l
  | none => none

/-- ContextManager.add_message: builds the message dict (role and content
always; name, tool_calls, tool_call_id only when truthy), appends it, and
increments the total_messages metadata counter. -/
def addMessage (w : ContextManager) (role : MessageRole) (content : String)
    (name : Option String) (toolCalls : Option (List ToolCall))
    (toolCallId : Option String) : ContextManager :=
  let message : Msg :=
    ⟨roleValue role, some content, pyTruthyStr name, pyTruthyList toolCalls,
      pyTruthyStr toolCallId⟩
  { w with
    messages := w.messages ++ [message]
    total_messages := w.total_messages + 1 }

/-- The message dict produced by add_message for a plain user task (no
optional keys). -/
def mkUserMsg (task : String) : Msg :=
  ⟨"user", some task, none, none, none⟩

/-- ContextManager.clear: empties the live message list only. -/
def clear (w : ContextManager) : ContextManager :=
  { w with messages := [] }

/-- Content truncation used by _summarize_messages and _generate_summary:
content[:200] plus an ellipsis when longer than 200 characters. -/
def truncate200 (s : String) : String :=
  if s.length > 200 then (s.take 200).append "..." else s

/-- Tool name extraction in _summarize_messages:
tc.get("function", dict()).get("name", "unknown"). -/
def toolCallName (tc : ToolCall) : String :=
  tc.function_name.getD "unknown"

/-- The one summary line _summarize_messages emits for a message, none
when the role matches no branch (e.g. system). -/
def msgSummaryLine (m : Msg) : Option String :=
  let content := truncate200 (m.content.getD "")
  if m.role = roleValue .user then
    some ("User asked: " ++ content)
  else if m.role = roleValue .assistant then
    match m.tool_calls with
    | some tcs =>
        some ("Assistant used tools: " ++ String.intercalate ", " (tcs.map toolCallName))
    | none => some ("Assistant: " ++ content)
  else if m.role = roleValue .tool then
    some ("Tool " ++ (m.name.getD "unknown") ++ " executed")
  else
    none

/-- The summary_parts list built by the loop in _summarize_messages. -/
def summaryParts (msgs : List Msg) : List String :=
  msgs.foldl (fun acc m =>
    match msgSummaryLine m with
    | some line => acc ++ [line]
    | none => acc) []

/-- ContextManager._summarize_messages: the joined digest string. -/
def summarizeMessages (msgs : List Msg) : String :=
  String.intercalate "\n" (summaryParts msgs)

/-- Python slice messages[-l:]. With l = 0 this is the whole list (the
-0 == 0 slicing quirk), otherwise the last l elements. -/
def pyLastSlice (l : Nat) (xs : List Msg) : List Msg :=
  if l = 0 then xs else xs.drop (xs.length - l)

/-- Python slice messages[f:-l]. With l = 0 this is messages[f:0] = [],
otherwise the elements from index f up to length - l. -/
def pyMiddleSlice (f l : Nat) (xs : List Msg) : List Msg :=
  if l = 0 then [] else (xs.take (xs.length - l)).drop f

/-- The synthetic summary message spliced in by compact. -/
def summaryMsg (middle : List Msg) : Msg :=
  ⟨roleValue .system,
    some ("[Context Summary - " ++ toString middle.length ++ " messages compressed]\n"
      ++ summarizeMessages middle),
    none, none, none⟩

/-- Field values of a message dict, in insertion order, each as Python
str() would render it (strings unchanged, the tool-call list via its
repr).  These are the values count_messages_tokens tokenizes. -/
def msgFieldStrings (m : Msg) : List String :=
  [m.role]
  ++ (match m.content with | some c => [c] | none => [])
  ++ (match m.name with | some s => [s] | none => [])
  ++ (match m.tool_calls with | some tcs => [toolCallsRepr tcs] | none => [])
  ++ (match m.tool_call_id with | some s => [s] | none => [])

/-- TokenTracker.count_messages_tokens: 4 framing tokens per message plus
the tokenized str() of every field value, plus 2 trailing tokens. -/
def countMessagesTokens (countText : String → Nat) (msgs : List Msg) : Nat :=
  (msgs.foldl (fun acc m =>
    (msgFieldStrings m).foldl (fun a s => a + countText s) (acc + 4)) 0) + 2

/-- ContextManager.compact: returns the updated manager and the
tokens_saved value it returns. -/
def compact (countText : String → Nat) (w : ContextManager) : ContextManager × Int :=
  if w.messages.length ≤ w.strategy.keep_first_n + w.strategy.keep_last_n then
    (w, 0)
  else
    let originalTokens := countMessagesTokens countText w.messages
    let firstMessages := w.messages.take w.strategy.keep_first_n
    let lastMessages := pyLastSlice w.strategy.keep_last_n w.messages
    let middleMessages := pyMiddleSlice w.strategy.keep_first_n w.strategy.keep_last_n w.messages
    let newMessages :=
      if w.strategy.summarize_middle ∧ middleMessages ≠ [] then
        firstMessages ++ [summaryMsg middleMessages] ++ lastMessages
      else
        firstMessages ++ lastMessages
    let newTokens := countMessagesTokens countText newMessages
    let saved : Int := (originalTokens : Int) - (newTokens : Int)
    ({ w with
        messages := newMessages
        compaction_count := w.compaction_count + 1
        compactions_meta := w.compactions_meta + 1
        tokens_saved := w.tokens_saved + saved },
      saved)

/-- The record written by ContextManager.export_context: the messages,
the metadata dict, and the get_state projection (only the parts of the
state block that import_context reads back are kept beside the full
metadata; get_state recomputes the rest from the same fields). -/
structure ContextExport where
  messages : List Msg
  md_total_messages : Nat
  md_compactions : Nat
  md_tokens_saved : Int
  state_message_count : Nat
  state_total_messages_seen : Nat
  state_compaction_count : Nat
  state_tokens_saved : Int
  state_max_tokens : Nat
  state_strategy : CompactionStrategy
deriving DecidableEq

/-- ContextManager.export_context. -/
def exportContext (w : ContextManager) : ContextExport :=
  ⟨w.messages, w.total_messages, w.compactions_meta, w.tokens_saved,
    w.messages.length, w.total_messages, w.compaction_count, w.tokens_saved,
    w.max_tokens, w.strategy⟩

/-- ContextManager.import_context: replaces messages and metadata
wholesale and takes compaction_count from the state block. -/
def importContext (w : ContextManager) (d : ContextExport) : ContextManager :=
  { w with
    messages := d.messages
    total_messages := d.md_total_messages
    compactions_meta := d.md_compactions
    tokens_saved := d.md_tokens_saved
    compaction_count := d.state_compaction_count }

/-- TokenUsage dataclass from token_tracker.py (the timestamp field,
wall-clock only, is omitted). -/
structure TokenUsage where
  prompt_tokens : Nat
  completion_tokens : Nat
  total_tokens : Nat
  context : Option String
deriving DecidableEq

/-- TokenTracker state: the budget and the append-only usage history
(the tokenizer itself is the external countText collaborator). -/
structure TokenTracker where
  max_tokens : Nat
  usage_history : List TokenUsage
deriving DecidableEq

/-- TokenTracker.record_usage: appends and returns the record. -/
def recordUsage (t : TokenTracker) (promptTokens completionTokens : Nat)
    (context : Option String) : TokenTracker × TokenUsage :=
  let usage : TokenUsage :=
    ⟨promptTokens, completionTokens, promptTokens + completionTokens, context⟩
  ({ t with usage_history := t.usage_history ++ [usage] }, usage)

/-- The dict returned by TokenTracker.get_total_usage. -/
structure TotalUsage where
  total_prompt_tokens : Nat
  total_completion_tokens : Nat
  total_tokens : Nat
  interaction_count : Nat
  max_tokens : Nat
  tokens_remaining : Int
deriving DecidableEq

/-- TokenTracker.get_total_usage: sums over the history, computed on
demand; tokens_remaining is max_tokens minus the total, over Int since
it may go negative. -/
def getTotalUsage (t : TokenTracker) : TotalUsage :=
  let totalPrompt := (t.usage_history.map (fun u => u.prompt_tokens)).sum
  let totalCompletion := (t.usage_history.map (fun u => u.completion_tokens)).sum
  ⟨totalPrompt, totalCompletion, totalPrompt + totalCompletion,
    t.usage_history.length, t.max_tokens,
    (t.max_tokens : Int) - ((totalPrompt + totalCompletion : Nat) : Int)⟩

/-- TokenTracker.reset: clears the history, keeps max_tokens. -/
def resetTracker (t : TokenTracker) : TokenTracker :=
  { t with usage_history := [] }

/-- TokenTracker.is_near_limit: count_messages_tokens of the messages
compared against max_tokens times the threshold (a Python float,
modelled as a rational). -/
def isNearLimit (countText : String → Nat) (t : TokenTracker) (msgs : List Msg)
    (threshold : ℚ) : Bool :=
  decide (((countMessagesTokens countText msgs : Nat) : ℚ) ≥ (t.max_tokens : ℚ) * threshold)

/-- Subagent state from subagent.py: identity, its own ContextManager and
TokenTracker (created fresh in __init__), and execution metadata. -/
structure SubagentState where
  name : String
  system_prompt : String
  max_iterations : Nat
  ctx : ContextManager
  tracker : TokenTracker
  execution_count : Nat
  total_tokens_used : Nat
deriving DecidableEq

/-- Subagent.__init__: a fresh ContextManager with the keep-first-1 /
keep-last-5 strategy seeded with the system prompt, and a fresh
TokenTracker with the given budget. -/
def mkSubagent (name systemPrompt : String) (maxTokens maxIterations : Nat) : SubagentState :=
  let ctx0 := mkContextManager maxTokens ⟨1, 5, true, 500⟩
  ⟨name, systemPrompt, maxIterations,
    addMessage ctx0 .system systemPrompt none none none,
    ⟨maxTokens, []⟩, 0, 0⟩

/-- SubagentResult from subagent.py (execution_time, wall-clock only, is
omitted; metadata is reduced to the compaction count it reports). -/
structure SubagentResult where
  success : Bool
  result : String
  summary : String
  token_usage : TotalUsage
  context_compactions : Nat
deriving DecidableEq

/-- Subagent._generate_summary: a deterministic digest of the window and
the usage totals. -/
def generateSummary (st : SubagentState) : String :=
  let messages := st.ctx.messages
  let tokenUsage := getTotalUsage st.tracker
  let userMessages := messages.filter (fun m => m.role = roleValue .user)
  let assistantMessages := messages.filter (fun m => m.role = roleValue .assistant)
  let taskLine :=
    match userMessages.getLast? with
    | some m => m.content.getD ""
    | none => "N/A"
  let parts :=
    ["Subagent: " ++ st.name,
     "Task: " ++ taskLine,
     "Messages exchanged: " ++ toString messages.length,
     "Tokens used: " ++ toString tokenUsage.total_tokens,
     "Context compactions: " ++ toString st.ctx.compaction_count]
  let parts :=
    match assistantMessages.getLast? with
    | some m => parts ++ ["Last response: " ++ truncate200 (m.content.getD "")]
    | none => parts
  String.intercalate "\n" parts

/-- Subagent._react_loop with the placeholder model step replaced by an
explicit external delegate (the model/tool executor collaborator of the
spec): one pass of the loop checks the 0.7 near-limit threshold, compacts
if needed, invokes the delegate on the current messages, records usage
and appends the assistant response; a delegate failure propagates as the
exception the caller catches.  The loop body runs at most once because
the source sets final_answer on the first iteration. -/
def reactLoop (countText : String → Nat) (st : SubagentState) (iterationLabel : String)
    (delegate : List Msg → Except String String) : Except String (SubagentState × String) :=
  if st.max_iterations = 0 then
    .ok (st, "Max iterations reached without final answer")
  else
    let messages := st.ctx.messages
    let st1 :=
      if isNearLimit countText st.tracker messages (7 / 10) then
        { st with ctx := (compact countText st.ctx).1 }
      else
        st
    let messages1 := st1.ctx.messages
    match delegate messages1 with
    | .error e => .error e
    | .ok responseText =>
        let promptTokens := countMessagesTokens countText messages1
        let completionTokens := countText responseText
        let (tracker1, _) := recordUsage st1.tracker promptTokens completionTokens
          (some ("Subagent " ++ st.name ++ " iteration 1 " ++ iterationLabel))
        let ctx1 := addMessage st1.ctx .assistant responseText none none none
        .ok ({ st1 with ctx := ctx1, tracker := tracker1 }, responseText)

/-- Subagent.run: increments execution_count, appends the User task,
runs the react loop, and on any delegate failure catches it and returns
a failed SubagentResult instead of raising. -/
def subagentRun (countText : String → Nat) (st : SubagentState) (task : String)
    (delegate : List Msg → Except String String) : SubagentState × SubagentResult :=
  let st1 := { st with
    execution_count := st.execution_count + 1
    ctx := addMessage st.ctx .user task none none none }
  match reactLoop countText st1 task delegate with
  | .ok (st2, resultText) =>
      let summary := generateSummary st2
      let tokenUsage := getTotalUsage st2.tracker
      let st3 := { st2 with total_tokens_used := st2.total_tokens_used + tokenUsage.total_tokens }
      (st3, ⟨true, resultText, summary, tokenUsage, st2.ctx.compaction_count⟩)
  | .error e =>
      (st1,
        ⟨false, "Error: " ++ e,
          "Subagent " ++ st.name ++ " encountered an error: " ++ e,
          getTotalUsage st1.tracker, st1.ctx.compaction_count⟩)

/-- ReactAgent state from agent.py: its own ContextManager and
TokenTracker plus the name-keyed subagent registry (the LLM handle, tool
list and MCP client are external collaborators and carry no verified
state). -/
structure ReactAgentState where
  system_prompt : String
  ctx : ContextManager
  tracker : TokenTracker
  subagents : List (String × SubagentState)
deriving DecidableEq

/-- ReactAgent.__init__: keep-first-2 / keep-last-10 strategy, window
seeded with the system prompt, empty registry. -/
def mkReactAgent (systemPrompt : String) (maxTokens : Nat) : ReactAgentState :=
  ⟨systemPrompt,
    addMessage (mkContextManager maxTokens ⟨2, 10, true, 500⟩) .system systemPrompt none none none,
    ⟨maxTokens, []⟩, []⟩

/-- Python dict get on the registry (ReactAgent.get_subagent). -/
def lookupSubagent (name : String) : List (String × SubagentState) → Option SubagentState
  | [] => none
  | (k, v) :: rest => if k = name then some v else lookupSubagent name rest

/-- Python dict assignment on the registry. -/
def setSubagent (name : String) (sa : SubagentState) :
    List (String × SubagentState) → List (String × SubagentState)
  | [] => [(name, sa)]
  | (k, v) :: rest =>
      if k = name then (k, sa) :: rest else (k, v) :: setSubagent name sa rest

/-- ReactAgent.create_subagent: builds a fresh Subagent (its own window
and tracker) and registers it under its name. -/
def createSubagent (st : ReactAgentState) (name systemPrompt : String)
    (maxTokens : Nat) : ReactAgentState :=
  let sa := mkSubagent name systemPrompt maxTokens 10
  { st with subagents := setSubagent name sa st.subagents }

/-- Running a registered subagent: look it up, run it, store the updated
subagent state back under its name.  The parent fields are untouched
because Subagent.run mutates only the subagent's own objects. -/
def runSubagent (countText : String → Nat) (st : ReactAgentState) (name task : String)
    (delegate : List Msg → Except String String) : ReactAgentState × Option SubagentResult :=
  match lookupSubagent name st.subagents with
  | none => (st, none)
  | some sa =>
      let out := subagentRun countText sa task delegate
      ({ st with subagents := setSubagent name out.1 st.subagents }, some out.2)

/-- ReactAgent.run: appends the User task, compacts at the 0.7
threshold if needed, then invokes the agent graph (the external
delegate).  On success the response is appended as an Assistant message
and usage is recorded against the pre-compaction message list; on
failure the error string is appended as an Assistant message and
returned as the (plain string) result. -/
def reactAgentRun (countText : String → Nat) (st : ReactAgentState) (task : String)
    (delegate : Except String String) : ReactAgentState × String :=
  let ctx1 := addMessage st.ctx .user task none none none
  let messages := ctx1.messages
  let ctx2 :=
    if isNearLimit countText st.tracker messages (7 / 10) then
      (compact countText ctx1).1
    else
      ctx1
  match delegate with
  | .ok response =>
      let ctx3 := addMessage ctx2 .assistant response none none none
      let promptTokens := countMessagesTokens countText messages
      let completionTokens := countText response
      let (tracker1, _) := recordUsage st.tracker promptTokens completionTokens (some task)
      ({ st with ctx := ctx3, tracker := tracker1 }, response)
  | .error e =>
      let errorMsg := "Error executing task: " ++ e
      ({ st with ctx := addMessage ctx2 .assistant errorMsg none none none }, errorMsg)

/-! Helper lemmas shared across the claim theorems. -/

/-- Folding token counts over a field list is the sum of the mapped
counts. -/
theorem foldl_add_count (g : String → Nat) (l : List String) (a : Nat) :
    l.foldl (fun x s => x + g s) a = a + (l.map g).sum := by
  induction l generalizing a with
  | nil => simp
  | cons s rest ih =>
      simp only [List.foldl_cons, List.map_cons, List.sum_cons, ih]
      omega

/-- The message-level fold of count_messages_tokens as a sum over
messages. -/
theorem foldl_msgs_count (countText : String → Nat) (msgs : List Msg) (a : Nat) :
    msgs.foldl (fun acc m =>
        (msgFieldStrings m).foldl (fun x s => x + countText s) (acc + 4)) a
      = a + (msgs.map (fun m => 4 + ((msgFieldStrings m).map countText).sum)).sum := by
  induction msgs generalizing a with
  | nil => simp
  | cons m rest ih =>
      rw [List.foldl_cons, ih, foldl_add_count]
      simp only [List.map_cons, List.sum_cons]
      omega

/-- compact never changes the total_messages metadata counter. -/
theorem compact_total_messages (countText : String → Nat) (w : ContextManager) :
    ((compact countText w).1).total_messages = w.total_messages := by
  unfold compact
  split
  · rfl
  · rfl

/-- Registry lookups under a different name are unaffected by a store. -/
theorem lookup_set_of_ne (b a : String) (sa : SubagentState)
    (l : List (String × SubagentState)) (h : b ≠ a) :
    lookupSubagent b (setSubagent a sa l) = lookupSubagent b l := by
  induction l with
  | nil => simp [setSubagent, lookupSubagent, Ne.symm h]
  | cons kv rest ih =>
      obtain ⟨k, v⟩ := kv
      by_cases hk : k = a
      · subst hk
        simp [setSubagent, lookupSubagent, Ne.symm h]
      · simp only [setSubagent, lookupSubagent, if_neg hk]
        by_cases hb : k = b
        · simp [hb]
        · simp [hb, ih]

/-! Claim theorems. -/

/-- C3: for every compaction policy with keep_first_n = f and
keep_last_n = l and every window holding at most f + l messages,
compact returns 0 and leaves the window exactly as it was. -/
theorem compact_small_window_noop (countText : String → Nat) (w : ContextManager)
    (h : w.messages.length ≤ w.strategy.keep_first_n + w.strategy.keep_last_n) :
    compact countText w = (w, 0) := by
  unfold compact
  exact if_pos h

/-- Concrete window for the C3 witness: default strategy, two messages. -/
def smallWindow : ContextManager :=
  addMessage (addMessage (mkContextManager 4096 ⟨2, 10, true, 500⟩)
    .system "prompt" none none none) .user "hello" none none none

theorem compact_small_window_noop_witness :
    smallWindow.messages.length ≤ smallWindow.strategy.keep_first_n + smallWindow.strategy.keep_last_n
    ∧ compact String.length smallWindow = (smallWindow, 0) :=
  ⟨by decide, compact_small_window_noop String.length smallWindow (by decide)⟩

/-- Operations of one ContextWindow lifetime, for the C4 monotonicity
statement. -/
inductive WindowOp where
  | append (role : MessageRole) (content : String) (name : Option String)
      (toolCalls : Option (List ToolCall)) (toolCallId : Option String)
  | compactOp
  | clearOp

/-- One step of a ContextWindow lifetime. -/
def applyOp (countText : String → Nat) (w : ContextManager) : WindowOp → ContextManager
  | .append r c n tc tid => addMessage w r c n tc tid
  | .compactOp => (compact countText w).1
  | .clearOp => clear w

/-- A whole sequence of ContextWindow operations. -/
def applyOps (countText : String → Nat) (w : ContextManager) (ops : List WindowOp) : ContextManager :=
  ops.foldl (applyOp countText) w

/-- Each single operation keeps total_messages non-decreasing. -/
theorem applyOp_total_messages_le (countText : String → Nat) (w : ContextManager)
    (op : WindowOp) : w.total_messages ≤ (applyOp countText w op).total_messages := by
  cases op with
  | append r c n tc tid => exact Nat.le_succ _
  | compactOp => rw [applyOp, compact_total_messages]
  | clearOp => exact Nat.le_refl _

/-- C4: the total_messages_seen counter is monotonically non-decreasing
across every sequence of append, compact and clear operations: append
increments it by one, compact and clear leave it untouched, and hence no
sequence of these operations ever decreases or resets it. -/
theorem total_messages_seen_monotone (countText : String → Nat) :
    (∀ (w : ContextManager) (r : MessageRole) (c : String) (n : Option String)
        (tc : Option (List ToolCall)) (tid : Option String),
      (addMessage w r c n tc tid).total_messages = w.total_messages + 1)
    ∧ (∀ w : ContextManager, ((compact countText w).1).total_messages = w.total_messages)
    ∧ (∀ w : ContextManager, (clear w).total_messages = w.total_messages)
    ∧ (∀ (w : ContextManager) (ops : List WindowOp),
      w.total_messages ≤ (applyOps countText w ops).total_messages) := by
  refine ⟨fun w r c n tc tid => rfl, compact_total_messages countText, fun w => rfl, ?_⟩
  intro w ops
  induction ops generalizing w with
  | nil => exact Nat.le_refl _
  | cons op rest ih =>
      exact Nat.le_trans (applyOp_total_messages_le countText w op) (ih _)

/-- C5: importing the record produced by export yields a window whose
message sequence and compaction_count equal the exported ones,
whatever the live state of the importing window was (import replaces
state wholesale). -/
theorem import_export_roundtrip (w target : ContextManager) :
    (importContext target (exportContext w)).messages = w.messages
    ∧ (importContext target (exportContext w)).compaction_count = w.compaction_count
    ∧ (importContext target (exportContext w)).total_messages = w.total_messages
    ∧ (importContext target (exportContext w)).tokens_saved = w.tokens_saved :=
  ⟨rfl, rfl, rfl, rfl⟩

/-- A tracker whose single record exceeds its zero budget, showing the
remaining figure goes negative without clamping. -/
def overBudgetTracker : TokenTracker :=
  ⟨0, [⟨1, 0, 1, none⟩]⟩

/-- C6: in every TokenTracker state, total_usage satisfies
total = prompt_total + completion_total and
remaining = max_tokens - total; remaining is a signed value and is not
clamped, as the over-budget tracker with remaining -1 shows. -/
theorem total_usage_consistent (t : TokenTracker) :
    (getTotalUsage t).total_tokens
      = (getTotalUsage t).total_prompt_tokens + (getTotalUsage t).total_completion_tokens
    ∧ (getTotalUsage t).tokens_remaining
      = (t.max_tokens : Int) - ((getTotalUsage t).total_tokens : Int)
    ∧ (getTotalUsage overBudgetTracker).tokens_remaining = -1 :=
  ⟨rfl, rfl, by decide⟩

/-- C7: is_near_limit is monotone in the threshold: over thresholds in
the unit interval, truth at a threshold implies truth at every smaller
threshold. -/
theorem isNearLimit_threshold_monotone (countText : String → Nat) (t : TokenTracker)
    (msgs : List Msg) (th th2 : ℚ) (h0 : 0 ≤ th2) (h1 : th2 ≤ th) (h2 : th ≤ 1)
    (h : isNearLimit countText t msgs th = true) :
    isNearLimit countText t msgs th2 = true := by
  unfold isNearLimit at h ⊢
  rw [decide_eq_true_eq] at h ⊢
  exact le_trans (mul_le_mul_of_nonneg_left h1 (Nat.cast_nonneg _)) h

unseal Rat.mul Rat.inv in
theorem isNearLimit_threshold_monotone_witness :
    (0 : ℚ) ≤ 1 / 10 ∧ (1 / 10 : ℚ) ≤ 1 / 5 ∧ (1 / 5 : ℚ) ≤ 1
    ∧ isNearLimit String.length (⟨10, []⟩ : TokenTracker) [] (1 / 5) = true
    ∧ isNearLimit String.length (⟨10, []⟩ : TokenTracker) [] (1 / 10) = true :=
  ⟨by norm_num, by norm_num, by norm_num, by decide,
    isNearLimit_threshold_monotone String.length ⟨10, []⟩ [] (1 / 5) (1 / 10)
      (by norm_num) (by norm_num) (by norm_num) (by decide)⟩

/-- C8 (amended): count_messages_tokens is the sum over messages of the
4-token framing overhead plus the tokenized str() of every field value
present, plus the trailing 2 tokens; it is a total function, and a
message with no content key is counted exactly like one whose content is
the empty string whenever the tokenizer gives the empty string zero
tokens (as a byte-pair tokenizer does). -/
theorem count_messages_formula (countText : String → Nat) (h0 : countText "" = 0)
    (msgs : List Msg) (m : Msg) :
    countMessagesTokens countText msgs
      = (msgs.map (fun mm => 4 + ((msgFieldStrings mm).map countText).sum)).sum + 2
    ∧ countMessagesTokens countText [{ m with content := none }]
      = countMessagesTokens countText [{ m with content := some "" }] := by
  constructor
  · unfold countMessagesTokens
    rw [foldl_msgs_count]
    omega
  · unfold countMessagesTokens
    rw [foldl_msgs_count, foldl_msgs_count]
    simp [msgFieldStrings, h0]

theorem count_messages_formula_witness :
    String.length "" = 0
    ∧ countMessagesTokens String.length [mkUserMsg "hi"]
      = ([mkUserMsg "hi"].map
          (fun mm => 4 + ((msgFieldStrings mm).map String.length).sum)).sum + 2
    ∧ countMessagesTokens String.length
        [{ (mkUserMsg "hi") with content := none }]
      = countMessagesTokens String.length
        [{ (mkUserMsg "hi") with content := some "" }] :=
  ⟨rfl,
    (count_messages_formula String.length rfl [mkUserMsg "hi"] (mkUserMsg "hi")).1,
    (count_messages_formula String.length rfl [mkUserMsg "hi"] (mkUserMsg "hi")).2⟩

/-- The C8 claim read literally: only the string-valued fields of a
message are tokenized, so the tool_calls field (a list of dicts, not a
string) contributes nothing. -/
def stringFieldStrings (m : Msg) : List String :=
  [m.role]
  ++ (match m.content with | some c => [c] | none => [])
  ++ (match m.name with | some s => [s] | none => [])
  ++ (match m.tool_call_id with | some s => [s] | none => [])

/-- Modelled from the claim wording: the per-message sum over string
fields only, with the same framing overheads. -/
def countMessagesClaim (countText : String → Nat) (msgs : List Msg) : Nat :=
  (msgs.map (fun m => 4 + ((stringFieldStrings m).map countText).sum)).sum + 2

/-- An assistant message carrying a tool_calls field. -/
def toolCallMsgs : List Msg :=
  [⟨"assistant", some "hi", none, some [⟨some "search"⟩], none⟩]

/-- C8 counterexample: on a message with a tool_calls field the code
also tokenizes the str() rendering of that non-string field, so the
count differs from the sum over string fields the claim describes. -/
theorem count_messages_string_fields_counterexample :
    countMessagesTokens String.length toolCallMsgs
      ≠ countMessagesClaim String.length toolCallMsgs := by
  decide

/-- C10: the compaction digest is exactly the in-order filterMap of the
per-message line function: one line per user, assistant or tool message
and none for any other role (such messages vanish from the summary);
user lines carry the content truncated by the 200-character ellipsis
rule. -/
theorem summarize_digest_lines :
    (∀ msgs : List Msg, summaryParts msgs = msgs.filterMap msgSummaryLine)
    ∧ (∀ m : Msg, (msgSummaryLine m).isSome = true
        ↔ (m.role = "user" ∨ m.role = "assistant" ∨ m.role = "tool"))
    ∧ (∀ (c : String) (nm : Option String) (tcs : Option (List ToolCall))
        (tid : Option String),
      msgSummaryLine ⟨"user", some c, nm, tcs, tid⟩
        = some ("User asked: " ++ truncate200 c))
    ∧ (∀ m : Msg, m.role = "system" → msgSummaryLine m = none) := by
  refine ⟨?_, ?_, ?_, ?_⟩
  · intro msgs
    suffices hgen : ∀ (acc : List String),
        msgs.foldl (fun acc m =>
          match msgSummaryLine m with
          | some line => acc ++ [line]
          | none => acc) acc = acc ++ msgs.filterMap msgSummaryLine by
      simpa using hgen []
    induction msgs with
    | nil => intro acc; simp
    | cons m rest ih =>
        intro acc
        cases hline : msgSummaryLine m with
        | none => simp [List.foldl_cons, List.filterMap_cons, hline, ih]
        | some line => simp [List.foldl_cons, List.filterMap_cons, hline, ih]
  · intro m
    unfold msgSummaryLine roleValue
    by_cases h1 : m.role = "user"
    · simp [h1]
    · by_cases h2 : m.role = "assistant"
      · cases m.tool_calls <;> simp [h1, h2]
      · by_cases h3 : m.role = "tool"
        · simp [h1, h2, h3]
        · simp [h1, h2, h3]
  · intro c nm tcs tid
    rfl
  · intro m h
    unfold msgSummaryLine roleValue
    simp [h]

/-- A sample middle segment mixing all four roles. -/
def sampleMiddle : List Msg :=
  [⟨"system", some "note", none, none, none⟩,
   ⟨"user", some "please check", none, none, none⟩,
   ⟨"assistant", some "checking", none, some [⟨some "grep"⟩], none⟩,
   ⟨"tool", some "output", some "grep", none, some "call-1"⟩]

theorem summarize_digest_lines_witness :
    summaryParts sampleMiddle = sampleMiddle.filterMap msgSummaryLine
    ∧ msgSummaryLine ⟨"system", some "note", none, none, none⟩ = none :=
  ⟨summarize_digest_lines.1 sampleMiddle,
    summarize_digest_lines.2.2.2 ⟨"system", some "note", none, none, none⟩ rfl⟩

/-- A window under the degenerate all-zero policy with a single message:
the keep_last_n = 0 input on which compact diverges from the documented
sizes (the Python slice messages[-0:] is the whole list, not the last
zero messages). -/
def c1FailWindow : ContextManager :=
  addMessage (mkContextManager 4096 ⟨0, 0, false, 500⟩) .user "only message" none none none

/-- The spec scenario window: keep-first-2 / keep-last-10 / summarize,
seeded with one System and one User message followed by 30 alternating
User/Assistant messages (32 in total). -/
def scenarioWindow : ContextManager :=
  let w0 := mkContextManager 4096 ⟨2, 10, true, 500⟩
  let w1 := addMessage w0 .system "You are a helpful assistant" none none none
  let w2 := addMessage w1 .user "Start the task" none none none
  (List.range 30).foldl
    (fun w i =>
      addMessage w (if i % 2 = 0 then .user else .assistant)
        ("message " ++ toString i) none none none) w2

/-- C1: the spec scenario does hold (32 messages compact to exactly 13
with compaction_count 1), but the claimed post-compaction sizes fail on
the code when keep_last_n = 0: with the all-zero policy,
summarize_middle off and one message, the claim demands 0 + 0 = 0
messages, yet compact leaves 1 because messages[-0:] keeps the whole
list. -/
theorem compact_sizes_keep_last_zero_bug :
    c1FailWindow.strategy.keep_first_n + c1FailWindow.strategy.keep_last_n = 0
    ∧ c1FailWindow.strategy.summarize_middle = false
    ∧ c1FailWindow.messages.length = 1
    ∧ (compact String.length c1FailWindow).1.messages.length = 1
    ∧ scenarioWindow.strategy.keep_first_n = 2
    ∧ scenarioWindow.strategy.keep_last_n = 10
    ∧ scenarioWindow.strategy.summarize_middle = true
    ∧ scenarioWindow.messages.length = 32
    ∧ (compact String.length scenarioWindow).1.messages.length = 13
    ∧ (compact String.length scenarioWindow).1.compaction_count = 1 := by
  decide

/-- Supporting result for the compaction sizes: away from the
keep_last_n = 0 slicing bug the claimed sizes do hold for every window
above the threshold. -/
theorem compact_sizes_of_keep_last_pos (countText : String → Nat) (w : ContextManager)
    (hl : 1 ≤ w.strategy.keep_last_n)
    (hn : w.strategy.keep_first_n + w.strategy.keep_last_n < w.messages.length) :
    (compact countText w).1.messages.length =
      (if w.strategy.summarize_middle then
        w.strategy.keep_first_n + w.strategy.keep_last_n + 1
      else
        w.strategy.keep_first_n + w.strategy.keep_last_n)
    ∧ (compact countText w).1.compaction_count = w.compaction_count + 1 := by
  have hlen : ¬ (w.messages.length ≤ w.strategy.keep_first_n + w.strategy.keep_last_n) := by
    omega
  have hl0 : w.strategy.keep_last_n ≠ 0 := by omega
  have hfirst : (w.messages.take w.strategy.keep_first_n).length = w.strategy.keep_first_n := by
    rw [List.length_take]
    omega
  have hlast : (pyLastSlice w.strategy.keep_last_n w.messages).length = w.strategy.keep_last_n := by
    rw [pyLastSlice, if_neg hl0, List.length_drop]
    omega
  have hmidlen : (pyMiddleSlice w.strategy.keep_first_n w.strategy.keep_last_n w.messages).length
      = w.messages.length - w.strategy.keep_last_n - w.strategy.keep_first_n := by
    rw [pyMiddleSlice, if_neg hl0, List.length_drop, List.length_take]
    omega
  have hmid : pyMiddleSlice w.strategy.keep_first_n w.strategy.keep_last_n w.messages ≠ [] := by
    intro hempty
    rw [hempty] at hmidlen
    simp at hmidlen
    omega
  unfold compact
  rw [if_neg hlen]
  cases hsm : w.strategy.summarize_middle with
  | true =>
      simp only [hsm, true_and, ne_eq, hmid, not_false_eq_true, if_pos]
      constructor
      · simp [List.length_append, hfirst, hlast]
        omega
      · trivial
  | false =>
      simp only [hsm, false_and, if_neg]
      constructor
      · simp [List.length_append, hfirst, hlast]
      · trivial

/-- C2 (amended): when the external delegate fails, Subagent.run returns
a failed result carrying the error text, no exception escapes (run is a
total function into a Result), and, provided the window was not near the
token limit when the loop started (so no compaction fired first), the
message sequence afterwards is exactly the prior sequence plus the one
appended User task message, with no Assistant message appended. -/
theorem subagent_run_delegate_failure (countText : String → Nat) (st : SubagentState)
    (task e : String) (delegate : List Msg → Except String String)
    (hit : st.max_iterations ≠ 0)
    (hnl : isNearLimit countText st.tracker (st.ctx.messages ++ [mkUserMsg task]) (7 / 10) = false)
    (hd : delegate (st.ctx.messages ++ [mkUserMsg task]) = .error e) :
    (subagentRun countText st task delegate).2.success = false
    ∧ (subagentRun countText st task delegate).2.result = "Error: " ++ e
    ∧ (subagentRun countText st task delegate).1.ctx.messages
        = st.ctx.messages ++ [mkUserMsg task] := by
  have hmsgs : (addMessage st.ctx MessageRole.user task none none none).messages
      = st.ctx.messages ++ [mkUserMsg task] := rfl
  unfold subagentRun reactLoop
  simp only [hmsgs, hnl, hit, hd, if_neg, Bool.false_eq_true, if_false, ite_false]
  refine ⟨?_, ?_, ?_⟩ <;> first | rfl | trivial

/-- Concrete subagent and failing delegate for the C2 witness. -/
def c2Subagent : SubagentState :=
  mkSubagent "researcher" "Research assistant prompt" 4096 10

/-- A delegate that always reports failure. -/
def failingDelegate : List Msg → Except String String :=
  fun _ => .error "model unavailable"

unseal Rat.mul Rat.inv in
theorem subagent_run_delegate_failure_witness :
    (subagentRun String.length c2Subagent "find facts" failingDelegate).2.success = false
    ∧ (subagentRun String.length c2Subagent "find facts" failingDelegate).2.result
        = "Error: model unavailable"
    ∧ (subagentRun String.length c2Subagent "find facts" failingDelegate).1.ctx.messages
        = c2Subagent.ctx.messages ++ [mkUserMsg "find facts"] :=
  subagent_run_delegate_failure String.length c2Subagent "find facts" "model unavailable"
    failingDelegate (by decide) (by decide) rfl

/-- A fresh parent agent for the C2 counterexample. -/
def c2Agent : ReactAgentState :=
  mkReactAgent "You are a helpful agent" 4096

unseal Rat.mul Rat.inv in
/-- C2 counterexample: ReactAgent.run, one of the two cited run
boundaries, appends the error text as an Assistant message when the
delegate fails, so the window is not left with only the appended User
task; the claimed absence of an Assistant append on failure is false on
this code path (which also returns a plain string, not a Result). -/
theorem react_agent_run_appends_error_assistant :
    (reactAgentRun String.length c2Agent "deploy" (Except.error "boom")).1.ctx.messages
      = c2Agent.ctx.messages
        ++ [mkUserMsg "deploy",
            ⟨"assistant", some "Error executing task: boom", none, none, none⟩]
    ∧ (reactAgentRun String.length c2Agent "deploy" (Except.error "boom")).1.ctx.messages
      ≠ c2Agent.ctx.messages ++ [mkUserMsg "deploy"]
    ∧ (reactAgentRun String.length c2Agent "deploy" (Except.error "boom")).2
      = "Error executing task: boom" := by
  decide

/-- C9: running one registered subagent leaves the parent's own window
and tracker untouched and leaves every differently-named sibling's
registry entry, hence its total_usage output, unchanged: only the
updated name's entry is written. -/
theorem sibling_subagents_isolated (countText : String → Nat) (st : ReactAgentState)
    (a b task : String) (delegate : List Msg → Except String String) (h : b ≠ a) :
    (runSubagent countText st a task delegate).1.ctx = st.ctx
    ∧ (runSubagent countText st a task delegate).1.tracker = st.tracker
    ∧ lookupSubagent b (runSubagent countText st a task delegate).1.subagents
        = lookupSubagent b st.subagents
    ∧ (lookupSubagent b (runSubagent countText st a task delegate).1.subagents).map
        (fun s => getTotalUsage s.tracker)
      = (lookupSubagent b st.subagents).map (fun s => getTotalUsage s.tracker) := by
  unfold runSubagent
  cases hl : lookupSubagent a st.subagents with
  | none => exact ⟨rfl, rfl, rfl, rfl⟩
  | some sa =>
      refine ⟨rfl, rfl, ?_, ?_⟩
      · exact lookup_set_of_ne b a _ _ h
      · rw [lookup_set_of_ne b a _ _ h]

/-- A parent with two sibling subagents on different budgets. -/
def c9Parent : ReactAgentState :=
  createSubagent
    (createSubagent (mkReactAgent "parent prompt" 4096) "alpha" "alpha prompt" 2048)
    "beta" "beta prompt" 1024

theorem sibling_subagents_isolated_witness :
    (runSubagent String.length c9Parent "alpha" "collect data" failingDelegate).1.ctx
        = c9Parent.ctx
    ∧ (runSubagent String.length c9Parent "alpha" "collect data" failingDelegate).1.tracker
        = c9Parent.tracker
    ∧ lookupSubagent "beta"
        (runSubagent String.length c9Parent "alpha" "collect data" failingDelegate).1.subagents
      = lookupSubagent "beta" c9Parent.subagents
    ∧ (lookupSubagent "beta"
        (runSubagent String.length c9Parent "alpha" "collect data" failingDelegate).1.subagents).map
          (fun s => getTotalUsage s.tracker)
      = (lookupSubagent "beta" c9Parent.subagents).map (fun s => getTotalUsage s.tracker) :=
  sibling_subagents_isolated String.length c9Parent "alpha" "beta" "collect data"
    failingDelegate (by decide)

end ReactAgentModel
